import Mathlib

/-!
Verification of the pygeoapi request-normalization and content-negotiation
layer: a shallow embedding of `pygeoapi/request.py`, `pygeoapi/constants.py`
and the execute helpers of the Flask and Starlette adapters, together with
theorems settling the behavioural claims about format negotiation, locale
resolution, response-header construction and the validity short-circuit.
Helpers from `pygeoapi.l10n` and `pygeoapi.api` that are not part of the
sources are modelled from the specification and marked as such.
-/

deriving instance DecidableEq for Except

namespace Pygeoapi

/-- Python str.split with a single-character separator, on the char list. -/
def pySplitAux (c : Char) : List Char → List Char → List String
  | [], acc => [String.mk acc.reverse]
  | x :: xs, acc =>
    if x == c then String.mk acc.reverse :: pySplitAux c xs []
    else pySplitAux c xs (x :: acc)

/-- Python str.split with a single-character separator. -/
def pySplit (s : String) (c : Char) : List String :=
  pySplitAux c s.toList []

/-- Python str.strip: removes leading and trailing whitespace. -/
def pyStrip (s : String) : String :=
  String.mk (((s.toList.dropWhile Char.isWhitespace).reverse.dropWhile
    Char.isWhitespace).reverse)

/-- Python str.lower on ASCII format names. -/
def pyLower (s : String) : String :=
  String.mk (s.toList.map Char.toLower)

/-- Dictionary read access, dict.get(k): value of the first pair whose key is k. -/
def lookup : List (String × String) → String → Option String
  | [], _ => none
  | p :: rest, k => if p.1 == k then some p.2 else lookup rest k

/-- dict.get(k, d): lookup with a default. -/
def lookupD (l : List (String × String)) (k d : String) : String :=
  (lookup l k).getD d

/-- Dictionary write access, d[k] = v: replaces the entry at an existing key or
appends a new pair. -/
def setKey : List (String × String) → String → String → List (String × String)
  | [], k, v => [(k, v)]
  | p :: rest, k, v =>
    if p.1 == k then (p.1, v) :: rest else p :: setKey rest k v

/-- dict.update: assigns every pair of the second map in order. -/
def updateAll (l upd : List (String × String)) : List (String × String) :=
  upd.foldl (fun acc p => setKey acc p.1 p.2) l

/-- Format name constant F_GZIP of pygeoapi/constants.py. -/
def F_GZIP : String := "gzip"

/-- Format name constant F_HTML of pygeoapi/constants.py. -/
def F_HTML : String := "html"

/-- Format name constant F_JSON of pygeoapi/constants.py. -/
def F_JSON : String := "json"

/-- Format name constant F_JSONLD of pygeoapi/constants.py. -/
def F_JSONLD : String := "jsonld"

/-- Format name constant F_MVT of pygeoapi/constants.py. -/
def F_MVT : String := "mvt"

/-- Format name constant F_PNG of pygeoapi/constants.py. -/
def F_PNG : String := "png"

/-- The ordered FORMAT_TYPES table of pygeoapi/constants.py: format name to
MIME type, in declaration order. -/
def FORMAT_TYPES : List (String × String) :=
  [(F_HTML, "text/html"),
   (F_JSONLD, "application/ld+json"),
   (F_JSON, "application/json"),
   (F_PNG, "image/png"),
   (F_MVT, "application/vnd.mapbox-vector-tile")]

/-- The package version string of pygeoapi/__init__.py. -/
def PYGEOAPI_VERSION : String := "0.21.dev0"

/-- The HEADERS constant of pygeoapi/constants.py: default response headers. -/
def HEADERS : List (String × String) :=
  [("Content-Type", "application/json"),
   ("X-Powered-By", "pygeoapi " ++ PYGEOAPI_VERSION)]

/-- One Accept header entry cleaned as in APIRequest._get_format:
t.split(";")[0].strip(), dropping any quality-value suffix. -/
def cleanToken (t : String) : String :=
  pyStrip ((pySplit t ';').headD t)

/-- The Accept header value as read by APIRequest._get_format:
headers.get("accept", headers.get("Accept", "")).strip(). -/
def acceptHeaderValue (headers : List (String × String)) : String :=
  pyStrip (match lookup headers "accept" with
    | some v => v
    | none => lookupD headers "Accept" "")

/-- The cleaned comma-separated token list of the Accept header value, skipping
empty raw entries, as produced by the generator in APIRequest._get_format. -/
def acceptTokens (h : String) : List String :=
  ((pySplit h ',').filter (fun t => !(t == ""))).map cleanToken

/-- Table lookup of a cleaned MIME token: the format name paired with the first
matching MIME type of FORMAT_TYPES (the mimes.index step of the source). -/
def formatNameOfMime (ty : String) : Option String :=
  (FORMAT_TYPES.find? (fun p => p.2 == ty)).map (fun p => p.1)

/-- APIRequest._get_format: the trimmed f query parameter wins when nonempty and
is returned without validation; otherwise the cleaned Accept header tokens are
scanned and the first token that is a known MIME type yields its format name;
otherwise none. -/
def get_format (args headers : List (String × String)) : Option String :=
  let format1 := pyStrip (lookupD args "f" "")
  if format1 ≠ "" then some format1
  else (acceptTokens (acceptHeaderValue headers)).findSome? formatNameOfMime

/-- APIRequest.is_valid: true when the format is unset or empty, when the format
is literally a key of FORMAT_TYPES, or when the format occurs among the
lowercased additional formats. -/
def is_valid (format : Option String) (additional_formats : Option (List String)) :
    Bool :=
  let f := format.getD ""
  if f == "" then true
  else if FORMAT_TYPES.any (fun p => p.1 == f) then true
  else if ((additional_formats.getD []).map pyLower).contains f then true
  else false

/-- The primary language subtag of a locale identifier: the part before the
first separator, used by the modelled locale helpers. -/
def primaryLang (s : String) : String :=
  String.mk (s.toList.takeWhile (fun ch => !(ch == '-' || ch == '_')))

/-- Modelled from the spec: l10n.str2locale (pygeoapi.l10n is not in src) parses
a locale identifier and fails with a LocaleError when the identifier is
unparsable; modelled as requiring a nonempty alphabetic primary language
subtag and returning the identifier itself on success. -/
def str2locale (s : String) : Option String :=
  let lang := primaryLang s
  if lang ≠ "" ∧ lang.toList.all Char.isAlpha then some s else none

/-- Modelled from the spec: l10n.locale_from_params (pygeoapi.l10n is not in
src) reads the explicit locale override query parameter lang; empty when
absent. -/
def locale_from_params (args : List (String × String)) : String :=
  lookupD args "lang" ""

/-- Modelled from the spec: l10n.locale_from_headers (pygeoapi.l10n is not in
src) reads the Accept-Language request header; empty when absent. -/
def locale_from_headers (headers : List (String × String)) : String :=
  match lookup headers "accept-language" with
  | some v => v
  | none => lookupD headers "Accept-Language" ""

/-- Modelled from the spec: l10n.best_match (pygeoapi.l10n is not in src)
computes the best match of a requested locale value against the supported
locales, falling back to the default (first) entry; modelled by scanning the
comma-separated, parameter-stripped entries of the request value and choosing
the first supported locale sharing a primary language subtag. -/
def best_match (locStr : String) (supported : List String) : String :=
  let cands := (pySplit locStr ',').map cleanToken
  match cands.findSome?
      (fun c => supported.find? (fun s => primaryLang s == primaryLang c)) with
  | some s => s
  | none => supported.headD ""

/-- APIRequest._get_locale: computes the default locale by parsing the first
supported entry (an initialization error when the list is empty or the head is
unparsable), then scans the lang query parameter and then the Accept-Language
header; the first nonempty source fixes the raw value, the query source always
returns its match immediately, a header match returns early only when it
differs from the default, and otherwise the raw value and the default locale
are returned. The locale helpers it calls are modelled from the spec since
pygeoapi.l10n is not in src. -/
def get_locale (args headers : List (String × String)) (supported : List String) :
    Except String (Option String × String) :=
  match supported with
  | [] =>
    .error "APIRequest must be initialized with a list of valid supported locales"
  | s0 :: _ =>
    match str2locale s0 with
    | none =>
      .error "APIRequest must be initialized with a list of valid supported locales"
    | some default_locale =>
      let q := locale_from_params args
      if q ≠ "" then
        .ok (some q, best_match q supported)
      else
        let hv := locale_from_headers headers
        if hv ≠ "" then
          let loc := best_match hv supported
          if loc ≠ default_locale then .ok (some hv, loc)
          else .ok (some hv, default_locale)
        else .ok (none, default_locale)

/-- Modelled from the spec: at startup the configuration loader parses every
supported locale and the process fails to start when the list is empty or any
entry is unparsable (that loader is not in src); modelled as a boolean
startup check. -/
def startup_locale_check (supported : List String) : Bool :=
  !supported.isEmpty && supported.all (fun s => (str2locale s).isSome)

/-- Modelled from the spec: l10n.set_response_language (pygeoapi.l10n is not in
src) stores the chosen locale in the Content-Language response header. -/
def set_response_language (headers : List (String × String)) (locale : String) :
    List (String × String) :=
  setKey headers "Content-Language" locale

/-- Substring test on char lists, modelling the Python membership test of a
string inside another string. -/
def listStartsWith : List Char → List Char → Bool
  | [], _ => true
  | _ :: _, [] => false
  | x :: xs, y :: ys => x == y && listStartsWith xs ys

/-- Python substring membership sub in s. -/
def pyInStr (sub s : String) : Bool :=
  go sub.toList s.toList
where
  go (sub : List Char) : List Char → Bool
    | [] => sub.isEmpty
    | y :: ys => listStartsWith sub (y :: ys) || go sub ys

/-- APIRequest.get_response_headers: copies HEADERS, applies the custom headers,
sets Content-Language from the forced or resolved locale, overrides
Content-Type with a truthy forced type or with the MIME type of a valid
nonempty request format, and runs the Content-Encoding block only when gzip is
a key of FORMAT_TYPES. The Content-Language write is the modelled
l10n.set_response_language. -/
def get_response_headers (format : Option String) (locale : String)
    (request_headers : List (String × String))
    (force_lang force_type force_encoding : Option String)
    (custom_headers : List (String × String)) : List (String × String) :=
  let headers := updateAll HEADERS custom_headers
  let headers := set_response_language headers
    (if force_lang.getD "" ≠ "" then force_lang.getD "" else locale)
  let headers :=
    if force_type.getD "" ≠ "" then
      setKey headers "Content-Type" (force_type.getD "")
    else if is_valid format none = true ∧ format.getD "" ≠ "" then
      setKey headers "Content-Type" (lookupD FORMAT_TYPES (format.getD "") "")
    else headers
  if FORMAT_TYPES.any (fun p => p.1 == F_GZIP) then
    if force_encoding.getD "" ≠ "" then
      setKey headers "Content-Encoding" (force_encoding.getD "")
    else if pyInStr F_GZIP (lookupD request_headers "Accept-Encoding" "") then
      setKey headers "Content-Encoding" F_GZIP
    else headers
  else headers

/-- Response content of the execute helpers: the Union of str and bytes, with
bytes as lists of byte values. -/
inductive Body where
  | text (s : String)
  | bytes (b : List Nat)
deriving DecidableEq

/-- Coercion of response content to bytes before compression (text is UTF-8
encoded), as the spec describes for apply_gzip. -/
def bodyToBytes : Body → List Nat
  | .text s => s.toUTF8.toList.map (fun b => b.toNat)
  | .bytes b => b

/-- Modelled from the spec: the gzip encoder used by apply_gzip (pygeoapi.api is
not in src); modelled as an invertible byte-level encoding that prepends the
two gzip magic marker bytes, so the round-trip property of the spec is
expressible. -/
def gzip_compress (b : List Nat) : List Nat :=
  31 :: 139 :: b

/-- Modelled from the spec: the gzip decoder, the inverse of the modelled
gzip_compress. -/
def gzip_decompress (b : List Nat) : List Nat :=
  b.drop 2

/-- Modelled from the spec: apply_gzip (pygeoapi.api is not in src) compresses
the body, coercing text to bytes first, exactly when the Content-Encoding
response header equals gzip, and returns the body unchanged otherwise. -/
def apply_gzip (headers : List (String × String)) (body : Body) : Body :=
  if lookup headers "Content-Encoding" == some F_GZIP then
    .bytes (gzip_compress (bodyToBytes body))
  else body

/-- The canonical response triple (headers, status, content). -/
structure Triple where
  headers : List (String × String)
  status : Nat
  content : Body
deriving DecidableEq

/-- The slice of the APIRequest state consumed by the execute helpers: the
negotiated format and the resolved locale. -/
structure APIRequest where
  format : Option String
  locale : String
deriving DecidableEq

/-- Modelled from the spec: API.get_format_exception (pygeoapi.api is not in
src) synthesizes the format-exception response triple: a 400-class status with
a machine-readable error body, still carrying the standard headers. -/
def get_format_exception (locale : String) : Triple :=
  { headers := setKey HEADERS "Content-Language" locale
    status := 400
    content := .text "Invalid format requested" }

/-- call_api_threadsafe of the Starlette adapter: runs the business-logic call
with the loop bound to the worker thread; in this pure embedding the callable
simply runs to completion on the call-count state. -/
def call_api_threadsafe (api_call : Nat → Triple × Nat) (calls : Nat) :
    Triple × Nat :=
  api_call calls

/-- execute_from_flask: short-circuits to the synthesized format exception when
the validity check is enabled and fails, and otherwise invokes the
business-logic callable and gzips its content. The callable is modelled as a
call-counting stub whose state is the number of invocations so far;
get_format_exception and apply_gzip are modelled definitions since
pygeoapi.api is not in src. -/
def execute_from_flask (req : APIRequest) (api_function : Nat → Triple × Nat)
    (calls : Nat) (skip_valid_check : Bool) : Triple × Nat :=
  if !skip_valid_check && !(is_valid req.format none) then
    (get_format_exception req.locale, calls)
  else
    let r := api_function calls
    ({ r.1 with content := apply_gzip r.1.headers r.1.content }, r.2)

/-- execute_from_starlette: the same validity short-circuit as the Flask path;
the event-loop executor bridge is call_api_threadsafe, which in this pure
embedding runs the callable to completion, and gzip is then applied. -/
def execute_from_starlette (req : APIRequest) (api_function : Nat → Triple × Nat)
    (calls : Nat) (skip_valid_check : Bool) : Triple × Nat :=
  if !skip_valid_check && !(is_valid req.format none) then
    (get_format_exception req.locale, calls)
  else
    let r := call_api_threadsafe api_function calls
    ({ r.1 with content := apply_gzip r.1.headers r.1.content }, r.2)

/-- Writing a key makes it readable: lookup after setKey at the same key. -/
theorem lookup_setKey_self (l : List (String × String)) (k v : String) :
    lookup (setKey l k v) k = some v := by
  induction l with
  | nil => simp [setKey, lookup]
  | cons p rest ih =>
    simp only [setKey]
    split
    · next h => simp [lookup, h]
    · next h => simp [lookup, h, ih]

/-- Writing one key leaves reads of a different key unchanged. -/
theorem lookup_setKey_ne (l : List (String × String)) (k v k2 : String)
    (hne : k2 ≠ k) : lookup (setKey l k v) k2 = lookup l k2 := by
  induction l with
  | nil => simp [setKey, lookup, Ne.symm hne]
  | cons p rest ih =>
    simp only [setKey]
    split
    · next h =>
      have hpk : p.1 = k := by simpa using h
      simp [lookup, hpk, Ne.symm hne]
    · next h =>
      simp only [lookup]
      split
      · rfl
      · exact ih

/-- A dict.update whose argument lacks a key leaves reads of that key
unchanged. -/
theorem lookup_updateAll_of_none (upd : List (String × String)) (k : String)
    (h : lookup upd k = none) (l : List (String × String)) :
    lookup (updateAll l upd) k = lookup l k := by
  induction upd generalizing l with
  | nil => rfl
  | cons p rest ih =>
    simp only [lookup] at h
    split at h
    · exact absurd h (by simp)
    · next hpk =>
      have h1 : lookup (updateAll (setKey l p.1 p.2) rest) k =
          lookup (setKey l p.1 p.2) k := ih h _
      have h2 : lookup (setKey l p.1 p.2) k = lookup l k :=
        lookup_setKey_ne l p.1 p.2 k (fun he => hpk (by simp [he]))
      simpa [updateAll] using h1.trans h2

/-- The modelled best match always lies in a nonempty supported list. -/
theorem best_match_mem (s : String) (supported : List String)
    (h : supported ≠ []) : best_match s supported ∈ supported := by
  unfold best_match
  dsimp only
  split
  · next t hfind =>
    obtain ⟨c, _, hfc⟩ := List.exists_of_findSome?_eq_some hfind
    exact List.mem_of_find?_eq_some hfc
  · cases supported with
    | nil => exact absurd rfl h
    | cons x xs => simp [List.headD]

/-- The modelled parser returns the identifier itself when it succeeds. -/
theorem str2locale_eq_self (s t : String) (h : str2locale s = some t) : t = s := by
  unfold str2locale at h
  dsimp only at h
  split at h
  · exact (Option.some.inj h).symm
  · cases h

/-- A branch characterization of get_locale over a parsable default entry: the
query override source wins whenever nonempty, then the header source, then the
default locale. -/
theorem get_locale_ok_of_parsable (args headers : List (String × String))
    (s0 : String) (rest : List String) (hd : str2locale s0 = some s0) :
    get_locale args headers (s0 :: rest) =
      (if locale_from_params args ≠ "" then
        .ok (some (locale_from_params args),
             best_match (locale_from_params args) (s0 :: rest))
      else if locale_from_headers headers ≠ "" then
        .ok (some (locale_from_headers headers),
             best_match (locale_from_headers headers) (s0 :: rest))
      else .ok (none, s0)) := by
  simp only [get_locale, hd]
  by_cases hq : locale_from_params args ≠ ""
  · simp [hq]
  · simp only [if_neg hq]
    by_cases hh : locale_from_headers headers ≠ ""
    · simp only [if_pos hh]
      by_cases hbm : best_match (locale_from_headers headers) (s0 :: rest) ≠ s0
      · simp [hbm]
      · push_neg at hbm
        simp [hbm]
    · simp [hh]

/-- C1: counterexample. With no f query parameter and the Accept header value
application/json;q=0.9, text/html;q=0.1, format negotiation returns json and
not html: APIRequest._get_format scans the header tokens in header order, so
the claimed table-order precedence fails on this input. -/
theorem format_negotiation_table_order_counterexample :
    get_format [] [("Accept", "application/json;q=0.9, text/html;q=0.1")] =
      some "json" ∧
    some "json" ≠ some "html" := by
  exact ⟨by decide, by decide⟩

/-- C1 amended: for every request with an empty (after trimming) f query
parameter, format negotiation returns the format table name of the first
cleaned Accept header token, scanned in header order, whose value is a MIME
type of the table; quality values are ignored, and the table order only maps
a matching MIME type to its name. In particular the example header yields
json, as the counterexample shows. -/
theorem format_negotiation_first_header_token (args headers : List (String × String))
    (fmt : String) (hf : pyStrip (lookupD args "f" "") = "") :
    get_format args headers = some fmt ↔
      ∃ pre tok post,
        acceptTokens (acceptHeaderValue headers) = pre ++ tok :: post ∧
        formatNameOfMime tok = some fmt ∧
        ∀ t ∈ pre, formatNameOfMime t = none := by
  have hgf : get_format args headers =
      (acceptTokens (acceptHeaderValue headers)).findSome? formatNameOfMime := by
    simp [get_format, hf]
  rw [hgf]
  exact List.findSome?_eq_some_iff

/-- Witness for the amended C1 theorem at a concrete request: an empty f
parameter and an Accept header whose first known token is text/html. -/
theorem format_negotiation_first_header_token_witness :
    pyStrip (lookupD [] "f" "") = "" ∧
    get_format [] [("Accept", "text/html;q=0.1, application/json")] =
      some "html" := by
  refine ⟨by decide, ?_⟩
  exact (format_negotiation_first_header_token []
    [("Accept", "text/html;q=0.1, application/json")] "html" (by decide)).mpr
    ⟨[], "text/html", ["application/json"], by decide, by decide, by decide⟩

/-- C2: when the validity check is enabled and the negotiated format fails it
(the execute paths pass no additional formats), both the Flask and the
Starlette execute path return the synthesized format-exception triple with
the call count of the business-logic stub unchanged, so the callable is never
invoked. -/
theorem execute_short_circuits_invalid_format (req : APIRequest)
    (api_function : Nat → Triple × Nat) (calls : Nat)
    (h : is_valid req.format none = false) :
    execute_from_flask req api_function calls false =
      (get_format_exception req.locale, calls) ∧
    execute_from_starlette req api_function calls false =
      (get_format_exception req.locale, calls) := by
  constructor <;> simp [execute_from_flask, execute_from_starlette, h]

/-- Witness for the C2 theorem: format xml is invalid, and both execute paths
return the format exception without bumping the call counter of an
incrementing stub. -/
theorem execute_short_circuits_invalid_format_witness :
    is_valid (some "xml") none = false ∧
    execute_from_flask ⟨some "xml", "en"⟩
        (fun n => (⟨[], 200, .text "ok"⟩, n + 1)) 0 false =
      (get_format_exception "en", 0) ∧
    execute_from_starlette ⟨some "xml", "en"⟩
        (fun n => (⟨[], 200, .text "ok"⟩, n + 1)) 0 false =
      (get_format_exception "en", 0) := by
  refine ⟨by decide, ?_, ?_⟩
  · exact (execute_short_circuits_invalid_format ⟨some "xml", "en"⟩
      (fun n => (⟨[], 200, .text "ok"⟩, n + 1)) 0 (by decide)).1
  · exact (execute_short_circuits_invalid_format ⟨some "xml", "en"⟩
      (fun n => (⟨[], 200, .text "ok"⟩, n + 1)) 0 (by decide)).2

/-- C3: the uppercase format name HTML is rejected by is_valid although its
lowercase spelling is a key of the format table, contradicting the
case-insensitive matching stated by the claim and by the is_valid docstring
of the source; the three concrete examples of the claim do hold. -/
theorem is_valid_case_sensitivity_bug :
    is_valid (some "HTML") none = false ∧
    FORMAT_TYPES.any (fun p => p.1 == pyLower "HTML") = true ∧
    is_valid none none = true ∧
    is_valid (some "bogus") none = false ∧
    is_valid (some "bogus") (some ["bogus"]) = true := by decide

/-- C4: a nonempty (after trimming) f query parameter is returned by format
negotiation exactly as trimmed, without any validation against the format
table and overriding any Accept header. -/
theorem f_param_overrides_negotiation (args headers : List (String × String))
    (h : pyStrip (lookupD args "f" "") ≠ "") :
    get_format args headers = some (pyStrip (lookupD args "f" "")) := by
  simp [get_format, h]

/-- Witness for the C4 theorem: f equal to bogus is returned verbatim even
though it is no format table key and the Accept header names text/html. -/
theorem f_param_overrides_negotiation_witness :
    pyStrip (lookupD [("f", "bogus")] "f" "") ≠ "" ∧
    get_format [("f", "bogus")] [("Accept", "text/html")] = some "bogus" := by
  refine ⟨by decide, ?_⟩
  exact (f_param_overrides_negotiation [("f", "bogus")] [("Accept", "text/html")]
    (by decide)).trans (by decide)

/-- C5: for a supported-locale list with at least one entry whose default
(first) entry parses, locale resolution never errors and the resolved locale
is always a member of the supported list, falling back to the first entry
when neither the query parameter nor the header yields a value. The locale
helpers are modelled from the spec since pygeoapi.l10n is not in src. -/
theorem resolved_locale_is_supported (args headers : List (String × String))
    (s0 : String) (rest : List String) (h : (str2locale s0).isSome = true) :
    ∃ raw loc, get_locale args headers (s0 :: rest) = .ok (raw, loc) ∧
      loc ∈ s0 :: rest ∧
      (locale_from_params args = "" → locale_from_headers headers = "" →
        loc = s0) := by
  obtain ⟨d, hd⟩ := Option.isSome_iff_exists.mp h
  have hds := str2locale_eq_self s0 d hd
  rw [hds] at hd
  rw [get_locale_ok_of_parsable args headers s0 rest hd]
  by_cases hq : locale_from_params args ≠ ""
  · refine ⟨some (locale_from_params args),
      best_match (locale_from_params args) (s0 :: rest), by simp [hq],
      best_match_mem _ _ (by simp), fun h1 _ => absurd h1 hq⟩
  · by_cases hh : locale_from_headers headers ≠ ""
    · refine ⟨some (locale_from_headers headers),
        best_match (locale_from_headers headers) (s0 :: rest), by simp [hq, hh],
        best_match_mem _ _ (by simp), fun _ h2 => absurd h2 hh⟩
    · exact ⟨none, s0, by simp [hq, hh], List.mem_cons_self s0 rest,
        fun _ _ => rfl⟩

/-- Witness for the C5 theorem: with no locale sources the default first entry
en is resolved and is a member of the supported list. -/
theorem resolved_locale_is_supported_witness :
    (str2locale "en").isSome = true ∧
    get_locale [] [] ["en", "fr"] = .ok (none, "en") ∧
    ("en" ∈ ["en", "fr"]) := by
  refine ⟨by decide, ?_, by decide⟩
  obtain ⟨raw, loc, hok, _, hdef⟩ :=
    resolved_locale_is_supported [] [] "en" ["fr"] (by decide)
  rw [hok, hdef rfl rfl]
  have hraw : raw = none := by
    have h1 : get_locale [] [] ["en", "fr"] = .ok (none, "en") := by decide
    have h2 := hok.symm.trans h1
    exact (Prod.mk.inj (Except.ok.inj h2)).1
  rw [hraw]

/-- C6: the raw locale is taken from the first source scanned (the lang query
parameter before the Accept-Language header) that yields a nonempty value,
and the query override source returns its best match immediately with no
condition on the default locale, while a nonempty header value also
determines both raw and resolved when the query source is empty (the header
early return fires only when the match differs from the default, but the
fallthrough then returns the same default match). -/
theorem raw_locale_first_source_override (args headers : List (String × String))
    (s0 : String) (rest : List String) (h : (str2locale s0).isSome = true) :
    (locale_from_params args ≠ "" →
      get_locale args headers (s0 :: rest) =
        .ok (some (locale_from_params args),
             best_match (locale_from_params args) (s0 :: rest))) ∧
    (locale_from_params args = "" → locale_from_headers headers ≠ "" →
      get_locale args headers (s0 :: rest) =
        .ok (some (locale_from_headers headers),
             best_match (locale_from_headers headers) (s0 :: rest))) := by
  obtain ⟨d, hd⟩ := Option.isSome_iff_exists.mp h
  have hds := str2locale_eq_self s0 d hd
  rw [hds] at hd
  rw [get_locale_ok_of_parsable args headers s0 rest hd]
  constructor
  · intro hq
    simp [hq]
  · intro hq hh
    simp [hq, hh]

/-- Witness for the C6 theorem: the query value en wins immediately although
its match equals the default, overriding a header that prefers fr; and with
no query value the header fr fixes both raw and resolved. -/
theorem raw_locale_first_source_override_witness :
    (str2locale "en").isSome = true ∧
    get_locale [("lang", "en")] [("Accept-Language", "fr")] ["en", "fr"] =
      .ok (some "en", "en") ∧
    get_locale [] [("Accept-Language", "fr")] ["en", "fr"] =
      .ok (some "fr", "fr") := by
  refine ⟨by decide, ?_, ?_⟩
  · exact ((raw_locale_first_source_override [("lang", "en")]
      [("Accept-Language", "fr")] "en" ["fr"] (by decide)).1
      (by decide)).trans (by decide)
  · exact ((raw_locale_first_source_override []
      [("Accept-Language", "fr")] "en" ["fr"] (by decide)).2
      (by decide) (by decide)).trans (by decide)

/-- C7: locale resolution fails with the initialization error when the
supported list is empty or its first entry is unparsable, while the modelled
startup check (the configuration loader is not in src and is modelled from
the spec) makes that failure startup-fatal: whenever the startup check
passes, resolution never errors for any request. -/
theorem locale_config_error_startup_fatal (supported : List String) :
    ((supported = [] ∨ str2locale (supported.headD "") = none) →
      ∀ args headers, ∃ e, get_locale args headers supported = .error e) ∧
    (startup_locale_check supported = true →
      ∀ args headers, ∃ v, get_locale args headers supported = .ok v) := by
  cases supported with
  | nil =>
    constructor
    · intro _ args headers
      exact ⟨_, rfl⟩
    · intro hs
      simp [startup_locale_check] at hs
  | cons s0 rest =>
    constructor
    · intro hor args headers
      rcases hor with h0 | h0
      · exact absurd h0 (by simp)
      · have h1 : str2locale s0 = none := by simpa using h0
        exact ⟨"APIRequest must be initialized with a list of valid supported locales",
          by simp [get_locale, h1]⟩
    · intro hs args headers
      have hall : ∀ s ∈ s0 :: rest, (str2locale s).isSome = true := by
        simpa [startup_locale_check, List.all_eq_true] using hs
      obtain ⟨d, hd⟩ := Option.isSome_iff_exists.mp
        (hall s0 (List.mem_cons_self s0 rest))
      have hds := str2locale_eq_self s0 d hd
      rw [hds] at hd
      rw [get_locale_ok_of_parsable args headers s0 rest hd]
      by_cases hq : locale_from_params args ≠ ""
      · exact ⟨(some (locale_from_params args),
          best_match (locale_from_params args) (s0 :: rest)), by simp [hq]⟩
      · by_cases hh : locale_from_headers headers ≠ ""
        · exact ⟨(some (locale_from_headers headers),
            best_match (locale_from_headers headers) (s0 :: rest)),
            by simp [hq, hh]⟩
        · exact ⟨(none, s0), by simp [hq, hh]⟩

/-- Witness for the C7 theorem: the empty list errors, and a startup-validated
list never errors at a concrete request. -/
theorem locale_config_error_startup_fatal_witness :
    (∃ e, get_locale [] [] [] = .error e) ∧
    startup_locale_check ["en", "fr"] = true ∧
    (∃ v, get_locale [("lang", "fr")] [] ["en", "fr"] = .ok v) := by
  refine ⟨?_, by decide, ?_⟩
  · exact (locale_config_error_startup_fatal []).1 (Or.inl rfl) [] []
  · exact (locale_config_error_startup_fatal ["en", "fr"]).2 (by decide)
      [("lang", "fr")] []

/-- C8: apply_gzip returns the body unchanged when the headers do not carry
Content-Encoding gzip, and otherwise returns the compression of the body
coerced to bytes, whose decompression gives those bytes back (the gzip codec
and apply_gzip are modelled from the spec since pygeoapi.api is not in src). -/
theorem apply_gzip_noop_and_roundtrip (headers : List (String × String))
    (body : Body) :
    (lookup headers "Content-Encoding" ≠ some "gzip" →
      apply_gzip headers body = body) ∧
    (lookup headers "Content-Encoding" = some "gzip" →
      apply_gzip headers body = .bytes (gzip_compress (bodyToBytes body)) ∧
      gzip_decompress (bodyToBytes (apply_gzip headers body)) =
        bodyToBytes body) := by
  constructor
  · intro h
    simp [apply_gzip, F_GZIP, h]
  · intro h
    constructor
    · simp [apply_gzip, F_GZIP, h]
    · simp [apply_gzip, F_GZIP, h, bodyToBytes, gzip_compress, gzip_decompress]

/-- Witness for the C8 theorem: without the header the byte body 1, 2, 3 is
untouched; with the header it is compressed and decompresses back. -/
theorem apply_gzip_noop_and_roundtrip_witness :
    (lookup [] "Content-Encoding" ≠ some "gzip" ∧
      apply_gzip [] (.bytes [1, 2, 3]) = .bytes [1, 2, 3]) ∧
    (lookup [("Content-Encoding", "gzip")] "Content-Encoding" = some "gzip" ∧
      apply_gzip [("Content-Encoding", "gzip")] (.bytes [1, 2, 3]) =
        .bytes (gzip_compress [1, 2, 3]) ∧
      gzip_decompress (bodyToBytes (apply_gzip [("Content-Encoding", "gzip")]
        (.bytes [1, 2, 3]))) = [1, 2, 3]) := by
  refine ⟨⟨by decide, ?_⟩, ⟨by decide, ?_, ?_⟩⟩
  · exact (apply_gzip_noop_and_roundtrip [] (.bytes [1, 2, 3])).1 (by decide)
  · exact ((apply_gzip_noop_and_roundtrip [("Content-Encoding", "gzip")]
      (.bytes [1, 2, 3])).2 (by decide)).1
  · exact ((apply_gzip_noop_and_roundtrip [("Content-Encoding", "gzip")]
      (.bytes [1, 2, 3])).2 (by decide)).2

/-- C9: counterexample. With no negotiated format and no forced type the
Content-Type of the constructed response headers is application/json, as set
by the HEADERS constant, and not application/json; charset=UTF-8 as the claim
states. -/
theorem default_content_type_counterexample :
    lookup (get_response_headers none "en" [] none none none [])
      "Content-Type" = some "application/json" ∧
    ("application/json" : String) ≠ "application/json; charset=UTF-8" := by
  exact ⟨by decide, by decide⟩

/-- C9 amended: for every request state and force arguments (with no custom
headers), the constructed response headers always contain a Content-Type
entry, a Content-Language entry and the static X-Powered-By product and
version string, and the Content-Type defaults to application/json whenever no
truthy forced type and no valid nonempty negotiated format overrides it. -/
theorem response_headers_invariant (format : Option String) (locale : String)
    (request_headers : List (String × String))
    (force_lang force_type force_encoding : Option String) :
    (∃ ct, lookup (get_response_headers format locale request_headers
      force_lang force_type force_encoding []) "Content-Type" = some ct) ∧
    (∃ cl, lookup (get_response_headers format locale request_headers
      force_lang force_type force_encoding []) "Content-Language" = some cl) ∧
    lookup (get_response_headers format locale request_headers
      force_lang force_type force_encoding []) "X-Powered-By" =
      some ("pygeoapi " ++ PYGEOAPI_VERSION) ∧
    (force_type.getD "" = "" →
      ¬ (is_valid format none = true ∧ format.getD "" ≠ "") →
      lookup (get_response_headers format locale request_headers
        force_lang force_type force_encoding []) "Content-Type" =
        some "application/json") := by
  have hgz : (FORMAT_TYPES.any (fun p => p.1 == F_GZIP)) = false := by decide
  simp only [get_response_headers, hgz, Bool.false_eq_true, if_false, updateAll,
    List.foldl_nil, set_response_language]
  set lng := if force_lang.getD "" ≠ "" then force_lang.getD "" else locale with hlng
  by_cases hft : force_type.getD "" ≠ ""
  · simp only [if_pos hft]
    refine ⟨⟨force_type.getD "", lookup_setKey_self ..⟩, ⟨lng, ?_⟩, ?_, ?_⟩
    · rw [lookup_setKey_ne _ _ _ _ (by decide)]
      exact lookup_setKey_self ..
    · rw [lookup_setKey_ne _ _ _ _ (by decide),
        lookup_setKey_ne _ _ _ _ (by decide)]
      decide
    · intro h1 _
      exact absurd h1 hft
  · simp only [if_neg hft]
    by_cases hvf : is_valid format none = true ∧ format.getD "" ≠ ""
    · simp only [if_pos hvf]
      refine ⟨⟨lookupD FORMAT_TYPES (format.getD "") "",
        lookup_setKey_self ..⟩, ⟨lng, ?_⟩, ?_, ?_⟩
      · rw [lookup_setKey_ne _ _ _ _ (by decide)]
        exact lookup_setKey_self ..
      · rw [lookup_setKey_ne _ _ _ _ (by decide),
          lookup_setKey_ne _ _ _ _ (by decide)]
        decide
      · intro _ h2
        exact absurd hvf h2
    · simp only [if_neg hvf]
      refine ⟨⟨"application/json", ?_⟩, ⟨lng, lookup_setKey_self ..⟩, ?_, ?_⟩
      · rw [lookup_setKey_ne _ _ _ _ (by decide)]
        decide
      · rw [lookup_setKey_ne _ _ _ _ (by decide)]
        decide
      · intro _ _
        rw [lookup_setKey_ne _ _ _ _ (by decide)]
        decide

/-- Witness for the amended C9 theorem at a concrete request with no format
and no force arguments: the default Content-Type and the static
X-Powered-By string. -/
theorem response_headers_invariant_witness :
    (Option.getD (none : Option String) "" = "") ∧
    lookup (get_response_headers none "en" [] none none none [])
      "Content-Type" = some "application/json" ∧
    lookup (get_response_headers none "en" [] none none none [])
      "X-Powered-By" = some ("pygeoapi " ++ PYGEOAPI_VERSION) := by
  have h := response_headers_invariant none "en" [] none none none
  exact ⟨rfl, h.2.2.2 rfl (by decide), h.2.2.1⟩

/-- C10: the response headers never contain a Content-Encoding entry (when the
custom headers do not supply one) because the whole encoding block of
get_response_headers is guarded by gzip being a key of FORMAT_TYPES, which it
is not, so the Accept-Encoding request header and the force_encoding argument
have no effect. -/
theorem no_content_encoding_header (format : Option String) (locale : String)
    (request_headers : List (String × String))
    (force_lang force_type force_encoding : Option String)
    (custom_headers : List (String × String))
    (h : lookup custom_headers "Content-Encoding" = none) :
    lookup (get_response_headers format locale request_headers force_lang
      force_type force_encoding custom_headers) "Content-Encoding" = none := by
  have hgz : (FORMAT_TYPES.any (fun p => p.1 == F_GZIP)) = false := by decide
  have hbase : lookup (updateAll HEADERS custom_headers) "Content-Encoding" =
      none := by
    rw [lookup_updateAll_of_none custom_headers _ h]
    decide
  simp only [get_response_headers, hgz, Bool.false_eq_true, if_false,
    set_response_language]
  by_cases hft : force_type.getD "" ≠ ""
  · simp only [if_pos hft]
    rw [lookup_setKey_ne _ _ _ _ (by decide),
      lookup_setKey_ne _ _ _ _ (by decide)]
    exact hbase
  · simp only [if_neg hft]
    by_cases hvf : is_valid format none = true ∧ format.getD "" ≠ ""
    · simp only [if_pos hvf]
      rw [lookup_setKey_ne _ _ _ _ (by decide),
        lookup_setKey_ne _ _ _ _ (by decide)]
      exact hbase
    · simp only [if_neg hvf]
      rw [lookup_setKey_ne _ _ _ _ (by decide)]
      exact hbase

/-- Witness for the C10 theorem: even with an Accept-Encoding gzip request
header and a forced encoding, no Content-Encoding entry appears. -/
theorem no_content_encoding_header_witness :
    lookup ([] : List (String × String)) "Content-Encoding" = none ∧
    lookup (get_response_headers (some "html") "en"
      [("Accept-Encoding", "gzip")] none none (some "gzip") [])
      "Content-Encoding" = none := by
  refine ⟨rfl, ?_⟩
  exact no_content_encoding_header (some "html") "en"
    [("Accept-Encoding", "gzip")] none none (some "gzip") [] rfl

end Pygeoapi
